import Mathlib

/-!
Shallow embedding of the block/transaction state-transition layer of a
Python EVM implementation, together with theorems that settle the frozen
claims about it.

Modules embedded:
* `evm/vm/base.py` — the `VM` orchestrator (`validate_block`,
  `validate_uncle`, `pack_block`, `create_block`, `state_in_temp_block`,
  `execute_bytecode`, `get_cumulative_gas_used`);
* `evm/vm/forks/frontier/validation.py` — `validate_frontier_message`,
  `validate_frontier_transaction`;
* `eth/vm/forks/petersburg/__init__.py` and `constants.py` — the
  Petersburg fork's `finalize_block` and devfund constants.

Python exceptions are embedded as an error type returned through `Except`.
Collaborators that live outside the embedded sources (the keccak digest,
the gas-limit continuity predicate, the state-class transaction executor)
are passed as explicit function parameters, so every theorem quantifies
over them.
-/

namespace PyEvm

/-- A 20-byte account address, as a byte list (Python `bytes`).  The
distinction between the 20-zero-byte address and the empty-bytes
contract-creation sentinel matters, so addresses are lists, not numbers. -/
abbrev Addr := List Nat

/-- Modelled from the spec: the distinguished zero address used as a
default for un-supplied sender/recipient/origin (`evm.constants`, outside
`src/`). -/
def ZERO_ADDRESS : Addr := List.replicate 20 0

/-- Modelled from the spec: the distinguished "contract creation"
recipient sentinel (`evm.constants`, outside `src/`); the empty byte
string, distinct from the zero address. -/
def CREATE_CONTRACT_ADDRESS : Addr := []

/-- Modelled from the spec: blocks carry at most two uncles
(`MAX_UNCLES` in `evm.constants`, outside `src/`). -/
def MAX_UNCLES : Nat := 2

/-- Embedded Python exceptions.  Each constructor stands for one `raise`
site (or one failing attribute lookup) in the embedded sources.
`validationError*` constructors are `ValidationError`s, distinguished by
their message; `attributeError name` is the `AttributeError` produced by
reading a nonexistent attribute `name`; `typeError` is a `TypeError`;
`blockNotFound` is `BlockNotFound`; `indexError` is an `IndexError`. -/
inductive PyErr where
  | gasLimitValidationFailed
  | extraDataTooLong
  | timestampBeforeParent
  | timestampEqualsParent
  | tooManyUncles
  | uncleNumberTooHigh
  | uncleAncestorNotFound (hash : Nat)
  | uncleNumberNotOneAboveAncestor
  | uncleTimestampBeforeAncestor
  | uncleGasUsageExceedsLimit
  | stateRootMissing
  | unclesHashMismatch
  | insufficientFundsForGas
  | insufficientFunds
  | gasLimitExceeded
  | invalidNonce
  | unknownHeaderField
  | attributeError (name : String)
  | typeError
  | blockNotFound
  | indexError
  deriving Repr, DecidableEq

deriving instance DecidableEq for Except

/-!
## Frontier message/transaction validation
(`evm/vm/forks/frontier/validation.py`)

The read-only state accessed by the validators (account balances and
nonces through `state_db`, plus the state's `gas_used` counter and
`gas_limit` ceiling) is modelled from the spec's data model for `State`,
since the state class itself is outside `src/`.
-/

/-- The read-only view of a `vm_state` used by the frontier validators.
Modelled from the spec: `State` owns an account view (balance, nonce per
address), a `gas_used` counter and a `gas_limit` ceiling. -/
structure VState where
  get_balance : Addr → Nat
  get_nonce : Addr → Nat
  gas_used : Nat
  gas_limit : Nat

/-- A message as seen by `validate_frontier_message`: `gas`, `gas_price`,
`value`, `sender`. -/
structure Msg where
  gas : Nat
  gas_price : Nat
  value : Nat
  sender : Addr

/-- A transaction as seen by `validate_frontier_transaction`: a message
plus a `nonce`. -/
structure Tx where
  nonce : Nat
  gas : Nat
  gas_price : Nat
  value : Nat
  sender : Addr
  deriving Repr, DecidableEq

/-- The message view of a transaction (in the source the transaction
object itself is passed to `validate_frontier_message`). -/
def Tx.msg (t : Tx) : Msg :=
  { gas := t.gas, gas_price := t.gas_price, value := t.value, sender := t.sender }

/-- `validate_frontier_message(vm_state, message)`: checks, in order, that
the sender balance covers `gas * gas_price`, that it covers
`value + gas * gas_price`, and that `vm_state.gas_used + message.gas`
does not exceed `vm_state.gas_limit`. -/
def validate_frontier_message (s : VState) (m : Msg) : Except PyErr Unit :=
  let gas_cost := m.gas * m.gas_price
  let sender_balance := s.get_balance m.sender
  if sender_balance < gas_cost then
    .error .insufficientFundsForGas
  else
    let total_cost := m.value + gas_cost
    if sender_balance < total_cost then
      .error .insufficientFunds
    else if s.gas_used + m.gas > s.gas_limit then
      .error .gasLimitExceeded
    else
      .ok ()

/-- `validate_frontier_transaction(vm_state, transaction)`: runs
`validate_frontier_message` first, then checks that the sender's current
nonce equals the transaction's nonce. -/
def validate_frontier_transaction (s : VState) (t : Tx) : Except PyErr Unit :=
  match validate_frontier_message s t.msg with
  | .error e => .error e
  | .ok () =>
    if s.get_nonce t.sender ≠ t.nonce then
      .error .invalidNonce
    else
      .ok ()

/-!
## Block headers, blocks and the chain store
The `BlockHeader` rlp class is outside `src/`, so its field set is
modelled from the spec's data model, which fixes the ordered field list.
Hashes and 32-byte roots are modelled as `Nat`.
-/

/-- Modelled from the spec: the `BlockHeader` data model (ordered field
list: parent hash, uncles hash, coinbase, state root, transactions root,
receipts root, bloom, difficulty, number, gas limit, gas used, timestamp,
extra data of at most 32 bytes, mix hash, nonce).  The spec calls the
height field `number`; the code accesses it as `block_number`. -/
structure BlockHeader where
  parent_hash : Nat
  uncles_hash : Nat
  coinbase : Addr
  state_root : Nat
  transactions_root : Nat
  receipts_root : Nat
  bloom : Nat
  difficulty : Nat
  block_number : Nat
  gas_limit : Nat
  gas_used : Nat
  timestamp : Nat
  extra_data : List Nat
  mix_hash : Nat
  nonce : Nat
  deriving Repr, DecidableEq

/-- The names in `BlockHeader.fields` (the rlp field list), in order:
this is the `known_fields` set consulted by `pack_block`. -/
def headerFieldNames : List String :=
  ["parent_hash", "uncles_hash", "coinbase", "state_root",
   "transactions_root", "receipts_root", "bloom", "difficulty",
   "block_number", "gas_limit", "gas_used", "timestamp", "extra_data",
   "mix_hash", "nonce"]

/-- The attribute names resolvable on a `BlockHeader` instance: its rlp
fields plus the computed `hash` digest the spec's data model mentions.
In particular there is no attribute named `uncle_hash`. -/
def headerAttrNames : List String := headerFieldNames ++ ["hash"]

/-- A block: header, ordered transactions, ordered uncle headers. -/
structure Block where
  header : BlockHeader
  transactions : List Tx
  uncles : List BlockHeader
  deriving Repr, DecidableEq

/-- `block.number` delegates to the header's height field. -/
def Block.number (b : Block) : Nat := b.header.block_number

/-- Modelled from the spec: `block.is_genesis` (the block class is
outside `src/`) — genesis is the block of number 0. -/
def Block.is_genesis (b : Block) : Bool := b.number == 0

/-- The chain store as seen by validation: header lookup by hash, and
the set of keys present in the backing store (for
`state.is_key_exists`).  Modelled from the spec's external-interface
description of the backing store (`ChainDB` is outside `src/`). -/
structure VDB where
  headers : List (Nat × BlockHeader)
  keys : List Nat

/-- `get_block_header_by_hash(hash, db)`: header lookup by hash. -/
def VDB.lookupHeader (db : VDB) (h : Nat) : Option BlockHeader :=
  (db.headers.find? (fun p => p.1 == h)).map (·.2)

/-!
## `VM.validate_uncle` and `VM.validate_block` (`evm/vm/base.py`)

Two collaborators of `validate_block` live outside `src/` and are passed
as parameters: `gasOk`, the boolean outcome of the
`validate_gas_limit` continuity check of the block's gas limit against
the parent's (spec: "validates gas_limit continuity against the
parent"), and `digest`, the `keccak(rlp.encode(uncles))` digest of a
serialized uncle list.
-/

/-- `validate_uncle(block, uncle)`: five checks in order.  The source
wraps the parent lookup in `try/except BlockNotFound` and re-raises a
`ValidationError` citing the missing ancestor hash. -/
def validate_uncle (db : VDB) (block : Block) (uncle : BlockHeader) :
    Except PyErr Unit :=
  if uncle.block_number ≥ block.number then
    .error .uncleNumberTooHigh
  else
    match db.lookupHeader uncle.parent_hash with
    | none => .error (.uncleAncestorNotFound uncle.parent_hash)
    | some parent_header =>
      if uncle.block_number ≠ parent_header.block_number + 1 then
        .error .uncleNumberNotOneAboveAncestor
      else if uncle.timestamp < parent_header.timestamp then
        .error .uncleTimestampBeforeAncestor
      else if uncle.gas_used > uncle.gas_limit then
        .error .uncleGasUsageExceedsLimit
      else
        .ok ()

/-- The `for uncle in block.uncles: self.validate_uncle(block, uncle)`
loop: first failure propagates. -/
def validate_uncles_loop (db : VDB) (block : Block) :
    List BlockHeader → Except PyErr Unit
  | [] => .ok ()
  | u :: us =>
    match validate_uncle db block u with
    | .ok () => validate_uncles_loop db block us
    | .error e => .error e

/-- `validate_block(block)`.  For non-genesis blocks: parent lookup
(`get_parent_header`, propagating `BlockNotFound`), gas-limit
continuity, `extra_data` length at most 32, timestamp strictly above
the parent's.  Then: at most `MAX_UNCLES` uncles, each uncle validated
in order, `state_root` present in the store, and finally the
uncles-hash comparison.  On an uncles-hash mismatch the source's
`raise ValidationError(...)` formats its message with
`block.header.uncle_hash` (base.py line 415) — `uncle_hash` is not a
header attribute (the field is `uncles_hash`, used three lines above),
so that attribute lookup itself fails and an `AttributeError` escapes
instead of the intended `ValidationError`. -/
def validate_block (gasOk : Nat → Nat → Bool)
    (digest : List BlockHeader → Nat) (db : VDB) (block : Block) :
    Except PyErr Unit :=
  match (if ¬ block.is_genesis then
      match db.lookupHeader block.header.parent_hash with
      | none => Except.error PyErr.blockNotFound
      | some parent_header =>
        if ¬ gasOk block.header.gas_limit parent_header.gas_limit then
          .error .gasLimitValidationFailed
        else if block.header.extra_data.length > 32 then
          .error .extraDataTooLong
        else if block.header.timestamp < parent_header.timestamp then
          .error .timestampBeforeParent
        else if block.header.timestamp == parent_header.timestamp then
          .error .timestampEqualsParent
        else
          .ok ()
    else .ok ()) with
  | .error e => .error e
  | .ok () =>
    if block.uncles.length > MAX_UNCLES then
      .error .tooManyUncles
    else
      match validate_uncles_loop db block block.uncles with
      | .error e => .error e
      | .ok () =>
        if ¬ db.keys.contains block.header.state_root then
          .error .stateRootMissing
        else
          let local_uncle_hash := digest block.uncles
          if local_uncle_hash ≠ block.header.uncles_hash then
            if headerAttrNames.contains "uncle_hash" then
              .error .unclesHashMismatch
            else
              .error (.attributeError "uncle_hash")
          else
            .ok ()

/-!
## `VM.pack_block` (`evm/vm/base.py`)
Keyword overrides are embedded as an association list in insertion
order (Python keyword arguments form a dict with distinct keys).
-/

/-- A value supplied as a header override: a number, a byte string, or
(under the special `uncles` key) an uncle list. -/
inductive HVal where
  | num (n : Nat)
  | bytes (bs : List Nat)
  | uncleList (us : List BlockHeader)
  deriving Repr, DecidableEq

/-- Dict key lookup over the kwargs association list. -/
def lookupKw (kw : List (String × HVal)) (k : String) : Option HVal :=
  (kw.find? (fun p => p.1 == k)).map (·.2)

/-- `kwargs.pop(k)`: the list without key `k`. -/
def removeKw (kw : List (String × HVal)) (k : String) :
    List (String × HVal) :=
  kw.filter (fun p => p.1 ≠ k)

/-- `kwargs.setdefault(k, v)`: insert `k ↦ v` only when `k` is absent. -/
def setdefaultKw (kw : List (String × HVal)) (k : String) (v : HVal) :
    List (String × HVal) :=
  if (lookupKw kw k).isSome then kw else kw ++ [(k, v)]

/-- `setattr(header, name, value)` for a recognized field name carrying
a value of the field's shape; other combinations leave the header
unchanged (the claims are settled only at well-shaped overrides). -/
def BlockHeader.setAttr (h : BlockHeader) (name : String) (v : HVal) :
    BlockHeader :=
  match name, v with
  | "parent_hash", .num n => { h with parent_hash := n }
  | "uncles_hash", .num n => { h with uncles_hash := n }
  | "coinbase", .bytes bs => { h with coinbase := bs }
  | "state_root", .num n => { h with state_root := n }
  | "transactions_root", .num n => { h with transactions_root := n }
  | "receipts_root", .num n => { h with receipts_root := n }
  | "bloom", .num n => { h with bloom := n }
  | "difficulty", .num n => { h with difficulty := n }
  | "block_number", .num n => { h with block_number := n }
  | "gas_limit", .num n => { h with gas_limit := n }
  | "gas_used", .num n => { h with gas_used := n }
  | "timestamp", .num n => { h with timestamp := n }
  | "extra_data", .bytes bs => { h with extra_data := bs }
  | "mix_hash", .num n => { h with mix_hash := n }
  | "nonce", .num n => { h with nonce := n }
  | _, _ => h

/-- The `if 'uncles' in kwargs:` prologue of `pack_block`: assign
`block.uncles`, pop the key, and default `uncles_hash` to the digest of
the new uncle list.  Returns the updated block and remaining kwargs. -/
def pack_uncles_step (digest : List BlockHeader → Nat) (block : Block)
    (kwargs : List (String × HVal)) : Block × List (String × HVal) :=
  match lookupKw kwargs "uncles" with
  | some (.uncleList us) =>
    ({ block with uncles := us },
     setdefaultKw (removeKw kwargs "uncles") "uncles_hash"
       (.num (digest us)))
  | _ => (block, kwargs)

/-- `pack_block(block, *args, **kwargs)`: handle the `uncles` key, fail
with an `AttributeError` (a configuration error) when any remaining key
is not a known header field, otherwise apply every override to the
header via `setattr` and run `validate_block` on the result. -/
def pack_block (gasOk : Nat → Nat → Bool)
    (digest : List BlockHeader → Nat) (db : VDB) (block : Block)
    (kwargs : List (String × HVal)) : Except PyErr Block :=
  let bk := pack_uncles_step digest block kwargs
  let provided := bk.2.map Prod.fst
  if provided.any (fun k => ! headerFieldNames.contains k) then
    .error .unknownHeaderField
  else
    let header :=
      bk.2.foldl (fun h p => BlockHeader.setAttr h p.1 p.2) bk.1.header
    let block2 := { bk.1 with header := header }
    match validate_block gasOk digest db block2 with
    | .ok () => .ok block2
    | .error e => .error e

/-!
## `VM.state_in_temp_block` (`evm/vm/base.py`)

A `@contextlib.contextmanager` generator: it builds a throwaway
successor state, records `snapshot = state.snapshot()`, yields the
state, and executes `state.revert(snapshot)` after the yield.  The
yield is not wrapped in `try/finally`, so when the enclosed code
raises, the exception is thrown into the generator at the yield point
and propagates — the `revert` line after the yield never runs.

The state class is outside `src/`; snapshot/revert are modelled from
the spec: `snapshot` records the current state value and `revert`
restores exactly the recorded value.  The body is an arbitrary function
from the yielded state to a final state paired with an optional raised
error. -/
def state_in_temp_block {σ : Type} (init : σ)
    (body : σ → σ × Option PyErr) : σ × Option PyErr :=
  let snapshot := init
  match body init with
  | (_, none) => (snapshot, none)
  | (s1, some e) => (s1, some e)

/-!
## `VM.create_block` (`evm/vm/base.py`)

Store contents are maps from keys to values (`Nat → Option Nat`).  The
state-class transaction executor (`vm_state.apply_transaction`), the
finalizer (`vm_state.finalize_block`) and the block generator
(`generate_block_from_parent_header_and_coinbase`, which depends on the
fork's difficulty formula) are collaborators outside this function and
are passed as parameters.
-/

/-- Store contents: a key/value map (`MemoryDB` dict). -/
abbrev TrieMap := Nat → Option Nat

/-- Python `self.update(other)`: entries of `other` win. -/
def dictUpdate (self other : TrieMap) : TrieMap :=
  fun k => match other k with
  | some v => some v
  | none => self k

/-- The empty store. -/
def emptyTrieMap : TrieMap := fun _ => none

/-- A receipt: cumulative gas used, bloom, logs. -/
structure Receipt where
  gas_used : Nat
  bloom : Nat
  logs : List Nat
  deriving Repr, DecidableEq

/-- The outcome of one state-class `apply_transaction` call, as read by
`create_block`: the error flag, the resulting state's receipts, and the
store writes recorded in the access logs. -/
structure Computation' where
  is_error : Bool
  receipts : List Receipt
  writes : TrieMap

/-- The state-class executor: given the witness store contents the
state is built over, the receipts the state starts from, the current
block and the transaction, return the computation and the result
block. -/
abbrev ApplyTxFn := TrieMap → List Receipt → Block → Tx → Computation' × Block

/-- The transaction loop of `create_block`, carrying the mutable
`block`, `receipts` and `recent_trie_nodes` variables.  Each package's
witness is first extended with the accumulated nodes
(`transaction_witness.update(recent_trie_nodes)`), the transaction is
applied over that store, and only a non-erroring computation advances
the block, the receipts and the accumulated nodes
(`recent_trie_nodes.update(...access_logs.writes)`); an erroring one
changes nothing. -/
def create_block_loop (applyTx : ApplyTxFn) :
    List (Tx × TrieMap) → Block → List Receipt → TrieMap →
    Block × List Receipt × TrieMap
  | [], block, receipts, recent_trie_nodes =>
    (block, receipts, recent_trie_nodes)
  | (transaction, transaction_witness) :: rest, block, receipts,
      recent_trie_nodes =>
    let witness_db := dictUpdate transaction_witness recent_trie_nodes
    let res := applyTx witness_db receipts block transaction
    if res.1.is_error then
      create_block_loop applyTx rest block receipts recent_trie_nodes
    else
      create_block_loop applyTx rest res.2 res.1.receipts
        (dictUpdate recent_trie_nodes res.1.writes)

/-- `create_block(transaction_packages, prev_hashes, coinbase,
parent_header)`: generate the initial block, run the transaction loop,
then build a state over the final accumulated nodes and finalize the
block once.  `prev_hashes` only feeds the execution context inside the
collaborators and is absorbed into them. -/
def create_block (applyTx : ApplyTxFn)
    (finalize : TrieMap → List Receipt → Block → Block)
    (genBlock : BlockHeader → Addr → Block)
    (transaction_packages : List (Tx × TrieMap)) (coinbase : Addr)
    (parent_header : BlockHeader) : Block :=
  let block := genBlock parent_header coinbase
  let res := create_block_loop applyTx transaction_packages block []
    emptyTrieMap
  finalize res.2.2 res.2.1 res.1

/-!
## `VM.get_cumulative_gas_used` (`evm/vm/base.py`)
`block.get_receipts(chaindb)` is a collaborator outside `src/`,
passed as a parameter.
-/

/-- `get_cumulative_gas_used(block)`: `0` for a block with no
transactions, otherwise the `gas_used` of the last receipt;  Python's
`[-1]` on an empty receipt list is an `IndexError`. -/
def get_cumulative_gas_used (getReceipts : Block → List Receipt)
    (block : Block) : Except PyErr Nat :=
  if block.transactions.length ≠ 0 then
    match (getReceipts block).getLast? with
    | some r => .ok r.gas_used
    | none => .error .indexError
  else
    .ok 0

/-!
## Account store and `VM.execute_bytecode` (`evm/vm/base.py`)

`execute_bytecode` applies defaults to its un-supplied parameters and
then runs `validate_uint256(self.gas_price, ...)` and the following
validation lines (base.py lines 146-151).  These read the attributes
`gas_price`, `gas`, `to`, `value` and `data` of the VM *object* —
not the just-computed local variables — and the `VM` class defines no
such attributes, so the first of those attribute lookups raises an
`AttributeError` on every call, before any state is touched.
-/

/-- The account store mutated through `state_db()`: balances (signed,
since `delta_balance` is called with negative deltas) and nonces. -/
structure AccountsDB where
  balances : Addr → Int
  nonces : Addr → Nat

/-- `state_db.delta_balance(addr, delta)`. -/
def AccountsDB.delta_balance (db : AccountsDB) (a : Addr) (d : Int) :
    AccountsDB :=
  { db with balances := fun x => if x = a then db.balances x + d else db.balances x }

/-- `state_db.increment_nonce(addr)`. -/
def AccountsDB.increment_nonce (db : AccountsDB) (a : Addr) : AccountsDB :=
  { db with nonces := fun x => if x = a then db.nonces x + 1 else db.nonces x }

/-- `state_db.get_nonce(addr)`. -/
def AccountsDB.get_nonce (db : AccountsDB) (a : Addr) : Nat := db.nonces a

/-- The attributes resolvable on a `VM` instance (`evm/vm/base.py`):
the instance attributes set in `__init__` and the class-level markers,
properties and methods of the `VM` class.  There is no attribute named
`gas_price`, `gas`, `to`, `value` or `data`. -/
def vmAttrNames : List String :=
  ["chaindb", "block", "_block_class", "_state_class", "logger",
   "state", "previous_hashes", "apply_transaction", "execute_bytecode",
   "import_block", "mine_block", "pack_block", "state_in_temp_block",
   "create_block", "generate_block_from_parent_header_and_coinbase",
   "validate_block", "validate_uncle", "get_transaction_class",
   "get_pending_transaction", "create_transaction",
   "create_unsigned_transaction", "get_block_class",
   "get_block_by_header", "get_prev_hashes", "get_cumulative_gas_used",
   "create_header_from_parent", "configure_header",
   "compute_difficulty", "clear_journal", "get_state_class",
   "get_state"]

/-- The message constructed by `execute_bytecode`. -/
structure Message where
  gas : Nat
  gas_price : Nat
  to' : Addr
  sender : Addr
  value : Nat
  data : List Nat
  code : List Nat
  create_address : Option Addr
  code_address : Option Addr

/-- `message.is_create`: the recipient is the creation sentinel. -/
def Message.is_create (m : Message) : Bool := m.to' == CREATE_CONTRACT_ADDRESS

/-- `execute_bytecode(...)`.  Defaults: the block's gas limit for gas,
`1` for gas price, the zero address for recipient/sender/origin, `0`
for value, empty bytes for data.  The validation lines then read
`self.gas_price`, `self.gas`, `self.to`, `self.value`, `self.data` —
attributes the `VM` object does not have — so the function raises an
attribute error there; the remaining code (gas-fee debit, nonce
increment, contract-address derivation, message construction and
dispatch, via the `genAddr`/`applyCreateMsg`/`applyCallMsg`
collaborators) is embedded but unreachable. -/
def execute_bytecode {Comp : Type} (genAddr : Addr → Nat → Addr)
    (applyCreateMsg applyCallMsg : Message → Comp)
    (blockGasLimit : Nat) (db : AccountsDB) (bytecode : List Nat)
    (gas : Option Nat) (gas_price : Option Nat) (to' : Option Addr)
    (sender : Option Addr) (value : Option Nat)
    (data : Option (List Nat)) (origin : Option Addr)
    (code_address : Option Addr) :
    Except PyErr (AccountsDB × Comp) :=
  let gas := gas.getD blockGasLimit
  let gas_price := gas_price.getD 1
  let to' := to'.getD ZERO_ADDRESS
  let sender := sender.getD ZERO_ADDRESS
  let value := value.getD 0
  let data := data.getD []
  let _origin := origin.getD ZERO_ADDRESS
  if ¬ vmAttrNames.contains "gas_price" then
    .error (.attributeError "gas_price")
  else if ¬ vmAttrNames.contains "gas" then
    .error (.attributeError "gas")
  else if ¬ vmAttrNames.contains "to" then
    .error (.attributeError "to")
  else if ¬ vmAttrNames.contains "value" then
    .error (.attributeError "value")
  else if ¬ vmAttrNames.contains "data" then
    .error (.attributeError "data")
  else
    let gas_fee := gas * gas_price
    let db1 := db.delta_balance sender (-(gas_fee : Int))
    let db2 := db1.increment_nonce sender
    let cdc : Option Addr × List Nat × List Nat :=
      if to' = CREATE_CONTRACT_ADDRESS then
        (some (genAddr sender (db2.get_nonce sender - 1)), [], [])
      else
        (code_address, data, bytecode)
    let message : Message :=
      { gas := gas, gas_price := gas_price, to' := to', sender := sender,
        value := value, data := cdc.2.1, code := cdc.2.2,
        create_address := cdc.1, code_address := code_address }
    if message.is_create then
      .ok (db2, applyCreateMsg message)
    else
      .ok (db2, applyCallMsg message)

/-!
## Petersburg fork finalization
(`eth/vm/forks/petersburg/__init__.py`, `constants.py`)
-/

/-- `EIP1234_BLOCK_REWARD = 2 * denoms.ether`. -/
def EIP1234_BLOCK_REWARD : Nat := 2 * 10 ^ 18

/-- `EIP1789_DEVFUND_REWARD`: currently no reward is issued. -/
def EIP1789_DEVFUND_REWARD : Nat := 0

/-- `EIP1789_DEVFUND_BENEFICIARY = Address(b'')`. -/
def EIP1789_DEVFUND_BENEFICIARY : Addr := []

/-- `PetersburgVM.get_devfund_reward()`. -/
def get_devfund_reward : Nat := EIP1789_DEVFUND_REWARD

/-- `PetersburgVM.get_devfund_beneficiary()`. -/
def get_devfund_beneficiary : Addr := EIP1789_DEVFUND_BENEFICIARY

/-- `PetersburgVM.finalize_block(block)`: credits the devfund
beneficiary with the devfund reward via
`self.state.account_db.delta_balance`, logs, and then executes
`return super(block)`.  `super` called with a block instance as its
first argument raises a `TypeError` (`super`'s one-argument form
requires a type), so the parent fork's `finalize_block` is never
invoked and no block is returned; the function yields the mutated
account store paired with the raised error. -/
def petersburg_finalize_block (db : AccountsDB) (_block : Block) :
    AccountsDB × Except PyErr Block :=
  let devfund_reward := get_devfund_reward
  let devfund_beneficiary := get_devfund_beneficiary
  let db1 := db.delta_balance devfund_beneficiary (devfund_reward : Int)
  (db1, .error .typeError)

/-!
## Concrete fixtures used by witnesses and counterexamples
-/

/-- An all-zero header, used as the base of concrete fixtures. -/
def baseHeader : BlockHeader :=
  { parent_hash := 0, uncles_hash := 0, coinbase := [], state_root := 0,
    transactions_root := 0, receipts_root := 0, bloom := 0,
    difficulty := 0, block_number := 0, gas_limit := 0, gas_used := 0,
    timestamp := 0, extra_data := [], mix_hash := 0, nonce := 0 }

/-- A state whose sender has no funds and nonce 0 (claim C5's
counterexample state). -/
def c5State : VState :=
  { get_balance := fun _ => 0, get_nonce := fun _ => 0, gas_used := 0,
    gas_limit := 10 }

/-- A transaction with a wrong nonce that also cannot afford its gas
(claim C5's counterexample transaction). -/
def c5Tx : Tx :=
  { nonce := 1, gas := 1, gas_price := 1, value := 0,
    sender := ZERO_ADDRESS }

/-- A funded state with nonce 3 (claim C5's witness state). -/
def w5State : VState :=
  { get_balance := fun _ => 10, get_nonce := fun _ => 3, gas_used := 0,
    gas_limit := 10 }

/-- A matching-nonce affordable transaction (claim C5's witness). -/
def w5Tx : Tx :=
  { nonce := 3, gas := 1, gas_price := 1, value := 0,
    sender := ZERO_ADDRESS }

/-- A state whose sender balance is exactly `value + gas * gas_price`
for `w6Msg` (claim C6's witness state). -/
def w6State : VState :=
  { get_balance := fun _ => 5, get_nonce := fun _ => 0, gas_used := 0,
    gas_limit := 10 }

/-- A message of total cost 5 (claim C6's witness message). -/
def w6Msg : Msg :=
  { gas := 2, gas_price := 2, value := 1, sender := ZERO_ADDRESS }

/-!
## Theorems for the frontier validators (claims C5, C6)
-/

/-- C6: `validate_frontier_message` succeeds exactly when the sender
balance covers `value + gas * gas_price` and
`gas_used + gas ≤ gas_limit` (in particular at an exactly-sufficient
balance); a balance below `gas * gas_price` fails as unable to afford
the transaction gas, a balance below the total cost fails as unable to
afford the transaction, an insufficient-funds failure occurs exactly
when the balance is below the total cost, and when the funds checks
pass but `gas_used + gas` exceeds the gas limit the failure is the
gas-limit one. -/
theorem C6_validate_frontier_message_characterization (s : VState)
    (m : Msg) :
    (validate_frontier_message s m = .ok () ↔
      m.value + m.gas * m.gas_price ≤ s.get_balance m.sender ∧
      s.gas_used + m.gas ≤ s.gas_limit) ∧
    (s.get_balance m.sender < m.gas * m.gas_price →
      validate_frontier_message s m = .error .insufficientFundsForGas) ∧
    (m.gas * m.gas_price ≤ s.get_balance m.sender →
      s.get_balance m.sender < m.value + m.gas * m.gas_price →
      validate_frontier_message s m = .error .insufficientFunds) ∧
    ((validate_frontier_message s m = .error .insufficientFundsForGas ∨
      validate_frontier_message s m = .error .insufficientFunds) ↔
      s.get_balance m.sender < m.value + m.gas * m.gas_price) ∧
    (m.value + m.gas * m.gas_price ≤ s.get_balance m.sender →
      s.gas_limit < s.gas_used + m.gas →
      validate_frontier_message s m = .error .gasLimitExceeded) := by
  simp only [validate_frontier_message]
  split_ifs with h1 h2 h3 <;>
    refine ⟨?_, ?_, ?_, ?_, ?_⟩ <;> simp_all <;> omega

/-- C6 witness: at the concrete exactly-sufficient balance the message
validates. -/
theorem C6_witness : validate_frontier_message w6State w6Msg = .ok () :=
  (C6_validate_frontier_message_characterization w6State w6Msg).1.mpr
    ⟨by decide, by decide⟩

/-- C5 counterexample: for a transaction whose nonce differs from the
sender's current nonce but whose sender cannot afford the gas,
`validate_frontier_transaction` raises the insufficient-funds failure,
not the invalid-nonce one — so "raises invalid-nonce iff the nonce
differs" is false at this input. -/
theorem C5_counterexample :
    ¬ ((validate_frontier_transaction c5State c5Tx =
          .error .invalidNonce) ↔
        c5Tx.nonce ≠ c5State.get_nonce c5Tx.sender) := by
  decide

/-- C5 (amended): when the message-level checks pass,
`validate_frontier_transaction` raises the invalid-nonce failure iff
the sender's current nonce differs from the transaction's nonce, and
succeeds iff they agree. -/
theorem C5_validate_frontier_transaction_nonce (s : VState) (t : Tx)
    (h : validate_frontier_message s t.msg = .ok ()) :
    (validate_frontier_transaction s t = .error .invalidNonce ↔
      s.get_nonce t.sender ≠ t.nonce) ∧
    (validate_frontier_transaction s t = .ok () ↔
      s.get_nonce t.sender = t.nonce) := by
  unfold validate_frontier_transaction
  rw [h]
  by_cases hn : s.get_nonce t.sender = t.nonce <;> simp [hn]

/-- C5 witness: the amended theorem applied at a funded state and a
matching nonce. -/
theorem C5_witness :
    validate_frontier_transaction w5State w5Tx = .ok () :=
  (C5_validate_frontier_transaction_nonce w5State w5Tx
    (by decide)).2.mpr (by decide)

/-!
## Theorems for uncle validation (claim C8)
-/

/-- C8: `validate_uncle` succeeds exactly when the uncle's number is
below the containing block's, its declared parent is found in the
store, its number is one above that parent's, its timestamp is not
before the parent's, and its gas usage is within its gas limit; and
the checks fire in this order, each failure raising the corresponding
validation error, with a missing ancestor surfaced as a validation
failure citing the missing hash. -/
theorem C8_validate_uncle_characterization (db : VDB) (block : Block)
    (uncle : BlockHeader) :
    (validate_uncle db block uncle = .ok () ↔
      uncle.block_number < block.number ∧
      ∃ parent, db.lookupHeader uncle.parent_hash = some parent ∧
        uncle.block_number = parent.block_number + 1 ∧
        parent.timestamp ≤ uncle.timestamp ∧
        uncle.gas_used ≤ uncle.gas_limit) ∧
    (block.number ≤ uncle.block_number →
      validate_uncle db block uncle = .error .uncleNumberTooHigh) ∧
    (uncle.block_number < block.number →
      db.lookupHeader uncle.parent_hash = none →
      validate_uncle db block uncle =
        .error (.uncleAncestorNotFound uncle.parent_hash)) ∧
    (∀ parent, uncle.block_number < block.number →
      db.lookupHeader uncle.parent_hash = some parent →
      uncle.block_number ≠ parent.block_number + 1 →
      validate_uncle db block uncle =
        .error .uncleNumberNotOneAboveAncestor) ∧
    (∀ parent, uncle.block_number < block.number →
      db.lookupHeader uncle.parent_hash = some parent →
      uncle.block_number = parent.block_number + 1 →
      uncle.timestamp < parent.timestamp →
      validate_uncle db block uncle =
        .error .uncleTimestampBeforeAncestor) ∧
    (∀ parent, uncle.block_number < block.number →
      db.lookupHeader uncle.parent_hash = some parent →
      uncle.block_number = parent.block_number + 1 →
      parent.timestamp ≤ uncle.timestamp →
      uncle.gas_limit < uncle.gas_used →
      validate_uncle db block uncle =
        .error .uncleGasUsageExceedsLimit) := by
  rcases hl : db.lookupHeader uncle.parent_hash with _ | parent <;>
      simp only [validate_uncle, hl] <;>
      split_ifs with h1 h2 h3 h4 <;>
      refine ⟨?_, ?_, ?_, ?_, ?_, ?_⟩ <;>
    simp_all <;> omega

/-- A two-entry store holding the uncle's parent under hash 9 (claim
C8's witness store). -/
def w8db : VDB := { headers := [(9, baseHeader)], keys := [] }

/-- A number-2 block (claim C8's witness containing block). -/
def w8block : Block :=
  { header := { baseHeader with block_number := 2 },
    transactions := [], uncles := [] }

/-- An uncle passing all five checks against `w8db` and `w8block`
(claim C8's witness uncle). -/
def w8uncle : BlockHeader :=
  { baseHeader with
      block_number := 1
      parent_hash := 9
      timestamp := 0
      gas_limit := 5
      gas_used := 3 }

/-- C8 witness: a concrete uncle passing all five checks. -/
theorem C8_witness : validate_uncle w8db w8block w8uncle = .ok () :=
  (C8_validate_uncle_characterization w8db w8block w8uncle).1.mpr
    ⟨by decide, baseHeader, by decide, by decide, by decide, by decide⟩

/-!
## Theorem for cumulative gas (claim C10)
-/

/-- C10: `get_cumulative_gas_used` returns 0 for a block with no
transactions, and the `gas_used` of the last receipt for a block with
at least one transaction (whose receipt list is nonempty). -/
theorem C10_get_cumulative_gas_used_spec
    (getReceipts : Block → List Receipt) (block : Block) :
    (block.transactions = [] →
      get_cumulative_gas_used getReceipts block = .ok 0) ∧
    (block.transactions ≠ [] → ∀ r,
      (getReceipts block).getLast? = some r →
      get_cumulative_gas_used getReceipts block = .ok r.gas_used) := by
  constructor
  · intro h
    simp [get_cumulative_gas_used, h]
  · intro h r hr
    have hlen : block.transactions.length ≠ 0 := by
      simpa using h
    simp [get_cumulative_gas_used, hlen, hr]

/-- C10 witness: a one-transaction block with one receipt of gas 7. -/
theorem C10_witness :
    get_cumulative_gas_used
      (fun _ => [{ gas_used := 7, bloom := 0, logs := [] }])
      { header := baseHeader, transactions := [c5Tx], uncles := [] } =
      .ok 7 :=
  (C10_get_cumulative_gas_used_spec
    (fun _ => [{ gas_used := 7, bloom := 0, logs := [] }])
    { header := baseHeader, transactions := [c5Tx], uncles := [] }).2
    (by decide) { gas_used := 7, bloom := 0, logs := [] } (by decide)

/-!
## Theorem for block validation (claim C1)
-/

/-- The trivially-true gas-limit continuity predicate, used to
instantiate the abstract continuity collaborator in concrete
evaluations. -/
def trueGasOk : Nat → Nat → Bool := fun _ _ => true

/-- A digest collaborator mapping every uncle list to 0, used in
concrete evaluations. -/
def zeroDigest : List BlockHeader → Nat := fun _ => 0

/-- The parent of claim C1's failing block, stored under hash 7. -/
def c1Parent : BlockHeader :=
  { baseHeader with
      gas_limit := 1000
      timestamp := 10 }

/-- Claim C1's failing block: non-genesis, passes the parent-relative
checks, the uncle checks and the state-root check, but its header's
`uncles_hash` (1) differs from the digest of its empty uncle list
(0 under `zeroDigest`). -/
def c1Block : Block :=
  { header :=
      { baseHeader with
          parent_hash := 7
          block_number := 1
          timestamp := 11
          uncles_hash := 1
          state_root := 5
          gas_limit := 1000 },
    transactions := [], uncles := [] }

/-- The store for claim C1: holds the parent under hash 7 and the
block's state root 5. -/
def c1db : VDB := { headers := [(7, c1Parent)], keys := [5] }

/-- C1: at a non-genesis block that passes every earlier check but
whose header `uncles_hash` does not match the digest of its uncle
list, `validate_block` does not raise the intended validation failure:
formatting that failure's message reads the nonexistent header
attribute `uncle_hash` (base.py line 415; the field is `uncles_hash`),
so an attribute error escapes instead.  This refutes the claim's
"every violation raises a validation failure". -/
theorem C1_validate_block_uncles_hash_attribute_error :
    validate_block trueGasOk zeroDigest c1db c1Block =
      .error (.attributeError "uncle_hash") := by
  decide

/-!
## Theorem for the temporary-state scope (claim C2)
-/

/-- C2: `state_in_temp_block` reverts the temporary state to the
entry snapshot when the enclosed code returns normally (first
conjunct), but when the enclosed code raises, the revert after the
yield is skipped and the mutated state survives (second conjunct):
with initial state 0 and a body that sets the state to 1 and raises,
the resulting state is 1, not the snapshot 0.  This refutes the
claim's "reverted ... on every exit path". -/
theorem C2_state_in_temp_block_exit_paths :
    state_in_temp_block (0 : Nat) (fun s => (s + 1, none)) = (0, none) ∧
    state_in_temp_block (0 : Nat) (fun s => (s + 1, some .typeError)) =
      (1, some .typeError) ∧
    (1 : Nat) ≠ 0 := by
  refine ⟨rfl, rfl, by decide⟩

/-!
## Theorem for Petersburg finalization (claim C3)
-/

/-- C3: on every block, `PetersburgVM.finalize_block` credits the
devfund beneficiary with the devfund reward (zero) and then raises a
`TypeError` from `return super(block)` instead of delegating to the
parent fork's `finalize_block` and returning the finalized block.
This refutes the claim's "delegates to the parent fork's
finalize_block ... returning the finalized block". -/
theorem C3_petersburg_finalize_block_raises (db : AccountsDB)
    (block : Block) :
    (petersburg_finalize_block db block).2 = .error .typeError ∧
    ∀ a, (petersburg_finalize_block db block).1.balances a =
      db.balances a +
        (if a = EIP1789_DEVFUND_BENEFICIARY then
          (EIP1789_DEVFUND_REWARD : Int) else 0) := by
  constructor
  · rfl
  · intro a
    by_cases h : a = EIP1789_DEVFUND_BENEFICIARY <;>
      simp [petersburg_finalize_block, AccountsDB.delta_balance,
        get_devfund_beneficiary, get_devfund_reward, h]

/-!
## Theorem for direct bytecode execution (claim C7)
-/

/-- C7: every call to `execute_bytecode` raises an attribute error at
the first validation line, which reads `self.gas_price` — an attribute
the VM object does not have (the validations were meant to read the
local effective parameters) — so no validation of the effective
parameters, no gas debit, no nonce increment and no dispatch ever
happens.  This refutes the claim's description of a completed
execution. -/
theorem C7_execute_bytecode_attribute_error {Comp : Type}
    (genAddr : Addr → Nat → Addr)
    (applyCreateMsg applyCallMsg : Message → Comp)
    (blockGasLimit : Nat) (db : AccountsDB) (bytecode : List Nat)
    (gas gas_price : Option Nat) (to' sender : Option Addr)
    (value : Option Nat) (data : Option (List Nat))
    (origin code_address : Option Addr) :
    execute_bytecode genAddr applyCreateMsg applyCallMsg blockGasLimit
      db bytecode gas gas_price to' sender value data origin
      code_address = .error (.attributeError "gas_price") := by
  have h : vmAttrNames.contains "gas_price" = false := by decide
  simp [execute_bytecode, h]
  intro hmem
  exact absurd hmem (by decide)

/-!
## Theorem for witness-driven block construction (claim C4)
-/

/-- C4: in `create_block`'s transaction loop, the head transaction
executes against its own witness extended with the accumulated store
entries of earlier non-erroring transactions (`dictUpdate p.2 recent`,
accumulated entries winning); when its computation errors the loop
continues with the block, receipts and accumulated entries unchanged;
when it does not error the loop continues with the result block, the
computation's receipts and the accumulated entries extended with the
computation's writes; and `create_block` applies `finalize_block`
exactly once, to the loop's final accumulated witness, receipts and
block. -/
theorem C4_create_block_spec (applyTx : ApplyTxFn)
    (finalize : TrieMap → List Receipt → Block → Block)
    (genBlock : BlockHeader → Addr → Block) :
    (∀ p ps block receipts recent,
      ((applyTx (dictUpdate p.2 recent) receipts block p.1).1.is_error
          = true →
        create_block_loop applyTx (p :: ps) block receipts recent =
          create_block_loop applyTx ps block receipts recent) ∧
      ((applyTx (dictUpdate p.2 recent) receipts block p.1).1.is_error
          = false →
        create_block_loop applyTx (p :: ps) block receipts recent =
          create_block_loop applyTx ps
            (applyTx (dictUpdate p.2 recent) receipts block p.1).2
            (applyTx (dictUpdate p.2 recent) receipts block
              p.1).1.receipts
            (dictUpdate recent
              (applyTx (dictUpdate p.2 recent) receipts block
                p.1).1.writes))) ∧
    (∀ packages coinbase parent_header,
      create_block applyTx finalize genBlock packages coinbase
          parent_header =
        finalize
          (create_block_loop applyTx packages
            (genBlock parent_header coinbase) [] emptyTrieMap).2.2
          (create_block_loop applyTx packages
            (genBlock parent_header coinbase) [] emptyTrieMap).2.1
          (create_block_loop applyTx packages
            (genBlock parent_header coinbase) [] emptyTrieMap).1) := by
  refine ⟨fun p ps block receipts recent =>
    ⟨fun h => ?_, fun h => ?_⟩, fun _ _ _ => rfl⟩
  · obtain ⟨t, w⟩ := p
    simp only [create_block_loop, h, if_true]
  · obtain ⟨t, w⟩ := p
    simp only [create_block_loop, h, Bool.false_eq_true, if_false]

/-- An executor whose computations always error, leaving the receipts
and witness as given (claim C4's witness executor). -/
def c4ApplyErr : ApplyTxFn :=
  fun w r b _t => ({ is_error := true, receipts := r, writes := w }, b)

/-- Claim C4's witness block. -/
def c4Block : Block :=
  { header := baseHeader, transactions := [], uncles := [] }

/-- C4 witness: with a concretely erroring transaction package, the
loop skips it, leaving block, receipts and accumulated witness
untouched. -/
theorem C4_witness :
    create_block_loop c4ApplyErr [(c5Tx, emptyTrieMap)] c4Block []
      emptyTrieMap =
    create_block_loop c4ApplyErr [] c4Block [] emptyTrieMap :=
  ((C4_create_block_spec c4ApplyErr (fun _ _ b => b)
      (fun h _ => { header := h, transactions := [], uncles := [] })).1
    (c5Tx, emptyTrieMap) [] c4Block [] emptyTrieMap).1 rfl

/-!
## Theorem for block packing (claim C9)
-/

/-- The block produced by `pack_block` when every override key is
recognized: the uncles-step block with every remaining override
applied to its header via `setattr`. -/
def pack_result (digest : List BlockHeader → Nat) (block : Block)
    (kwargs : List (String × HVal)) : Block :=
  let bk := pack_uncles_step digest block kwargs
  { bk.1 with
      header :=
        bk.2.foldl (fun h p => BlockHeader.setAttr h p.1 p.2) bk.1.header }

/-- Appending a fresh key to a kwargs list makes it found. -/
theorem lookupKw_append_self (kw : List (String × HVal)) (k : String)
    (v : HVal) (h : lookupKw kw k = none) :
    lookupKw (kw ++ [(k, v)]) k = some v := by
  induction kw with
  | nil => simp [lookupKw]
  | cons p ps ih =>
    by_cases hpk : (p.1 == k) = true
    · simp [lookupKw, List.find?, hpk] at h
    · rw [Bool.not_eq_true] at hpk
      simp only [lookupKw, List.cons_append, List.find?, hpk] at h ⊢
      exact ih h

/-- C9: `pack_block` fails with the configuration error exactly when
some override key (after the `uncles` key is handled) is not a known
header field, in which case no block is produced; when all keys are
recognized it applies exactly those overrides to the header and
returns the result of running `validate_block` on the updated block;
and a supplied `uncles` override replaces the uncle list and defaults
`uncles_hash` to the digest of the new uncles when `uncles_hash` was
not itself supplied. -/
theorem C9_pack_block_spec (gasOk : Nat → Nat → Bool)
    (digest : List BlockHeader → Nat) (db : VDB) (block : Block)
    (kwargs : List (String × HVal)) :
    (((pack_uncles_step digest block kwargs).2.map Prod.fst).any
        (fun k => ! headerFieldNames.contains k) = true →
      pack_block gasOk digest db block kwargs =
        .error .unknownHeaderField) ∧
    (((pack_uncles_step digest block kwargs).2.map Prod.fst).any
        (fun k => ! headerFieldNames.contains k) = false →
      pack_block gasOk digest db block kwargs =
        (validate_block gasOk digest db
            (pack_result digest block kwargs)).map
          (fun _ => pack_result digest block kwargs)) ∧
    (∀ us, lookupKw kwargs "uncles" = some (.uncleList us) →
      (pack_uncles_step digest block kwargs).1.uncles = us ∧
      (lookupKw (removeKw kwargs "uncles") "uncles_hash" = none →
        lookupKw (pack_uncles_step digest block kwargs).2 "uncles_hash"
          = some (.num (digest us)))) := by
  refine ⟨fun h => ?_, fun h => ?_, fun us hu => ?_⟩
  · simp only [pack_block, h, if_true]
  · simp only [pack_block, h, Bool.false_eq_true, if_false]
    cases hv : validate_block gasOk digest db
        (pack_result digest block kwargs) with
    | ok u =>
      cases u
      simp only [pack_result] at hv
      simp [hv, Except.map, pack_result]
    | error e =>
      simp only [pack_result] at hv
      simp [hv, Except.map, pack_result]
  · constructor
    · simp [pack_uncles_step, hu]
    · intro hnone
      simp only [pack_uncles_step, hu, setdefaultKw, hnone,
        Option.isSome_none, Bool.false_eq_true, if_false]
      exact lookupKw_append_self _ _ _ hnone

/-- C9 witness: a single unrecognized override key makes `pack_block`
fail with the configuration error. -/
theorem C9_witness :
    pack_block trueGasOk zeroDigest c1db c1Block
      [("bogus", HVal.num 1)] = .error .unknownHeaderField :=
  (C9_pack_block_spec trueGasOk zeroDigest c1db c1Block
    [("bogus", HVal.num 1)]).1 (by decide)

end PyEvm
